import Mathlib

/-!
# Verification of the NSW/TAS fuel API client (request/auth orchestration layer)

Shallow embedding of `src/nsw_tas_fuel/dto.py`, `src/nsw_tas_fuel/client.py`
and `src/nsw_tas_fuel/const.py`.

Conventions of the embedding:
* JSON values parsed from response bodies (and the loosely typed Python
  values flowing through the client) are modelled by the inductive `Json`.
  Python `None` is `Json.null`; numbers are rationals.
* Python exceptions that the source can raise and catch are modelled by
  `PyError` (KeyError / TypeError / ValueError / AttributeError).
* Fallible Python operations on dynamic values (`d[k]`, `d.get(k)`,
  `k in d`, `int(x)`, iteration) are modelled by total Lean functions into
  `Except PyError _`, matching CPython semantics on the `Json` universe.
* `datetime.strptime` for the two fixed format strings used by the source
  is modelled by executable parsers returning `Option PyDateTime`
  (`none` models the `ValueError` that `contextlib.suppress` swallows).
* Wall-clock time (`time.time()`) is a rational number of seconds.
-/

set_option maxRecDepth 4096

namespace NSWFuel

/-- JSON / dynamic Python value universe. -/
inductive Json where
  | null : Json
  | bool (b : Bool) : Json
  | num (q : Rat) : Json
  | str (s : String) : Json
  | arr (xs : List Json) : Json
  | obj (kvs : List (String × Json)) : Json
deriving Repr

/-- Python exceptions raised (and sometimes caught) by the source. -/
inductive PyError where
  | keyError (key : String) : PyError
  | typeError (msg : String) : PyError
  | valueError (msg : String) : PyError
  | attributeError (msg : String) : PyError
deriving Repr, DecidableEq

/-- Model: `str(err)` for a wrapped Python exception (message payload only;
the exact rendering is not load-bearing for any claim). -/
def pyErrStr : PyError → String
  | .keyError k => "'" ++ k ++ "'"
  | .typeError m => m
  | .valueError m => m
  | .attributeError m => m

/-- First-match lookup in a JSON object's key/value list (parsed JSON
objects have unique keys, so first-match agrees with Python dicts). -/
def dictLookup (kvs : List (String × Json)) (k : String) : Option Json :=
  match kvs with
  | [] => none
  | (k', v) :: rest => if k' = k then some v else dictLookup rest k

/-- Python truthiness (`bool(x)` is `False`) on the `Json` universe. -/
def Json.isFalsy : Json → Bool
  | .null => true
  | .bool b => !b
  | .num q => q == 0
  | .str s => s == ""
  | .arr xs => xs.isEmpty
  | .obj kvs => kvs.isEmpty

/-- Model: `d[k]` subscription: KeyError when the key is absent from a dict,
TypeError when the value is not a dict (string subscripts on lists,
strings, numbers, `None` all raise TypeError in CPython). -/
def Json.getItem : Json → String → Except PyError Json
  | .obj kvs, k =>
      match dictLookup kvs k with
      | some v => .ok v
      | none => .error (.keyError k)
  | _, k => .error (.typeError ("value is not subscriptable by " ++ k))

/-- Model: `d.get(k)`: `None` when absent; AttributeError when `d` is not a dict. -/
def Json.pyGet : Json → String → Except PyError Json
  | .obj kvs, k => .ok ((dictLookup kvs k).getD .null)
  | _, _ => .error (.attributeError "object has no attribute get")

/-- Model: `d.get(k, default)`. -/
def Json.pyGetD : Json → String → Json → Except PyError Json
  | .obj kvs, k, d => .ok ((dictLookup kvs k).getD d)
  | _, _, _ => .error (.attributeError "object has no attribute get")

/-- Does the character list `n` occur at the start of `h`? -/
def startsWithChars : List Char → List Char → Bool
  | [], _ => true
  | _ :: _, [] => false
  | c :: n, d :: h => c = d && startsWithChars n h

/-- Does the character list `n` occur contiguously inside `h`? -/
def containsChars (n : List Char) : List Char → Bool
  | [] => startsWithChars n []
  | d :: h => startsWithChars n (d :: h) || containsChars n h

/-- Model: `k in d` membership test for a string key `k`: dict key membership,
list element equality, substring test on strings; TypeError otherwise. -/
def Json.pyIn (j : Json) (k : String) : Except PyError Bool :=
  match j with
  | .obj kvs => .ok (dictLookup kvs k).isSome
  | .arr xs =>
      .ok (xs.any fun x =>
        match x with
        | .str s => s = k
        | _ => false)
  | .str s => .ok (containsChars k.toList s.toList)
  | _ => .error (.typeError "argument is not iterable")

/-- Model: `for x in d`: lists yield elements, strings yield characters,
dicts yield their keys; TypeError otherwise. -/
def Json.pyIter : Json → Except PyError (List Json)
  | .arr xs => .ok xs
  | .str s => .ok (s.toList.map fun c => .str c.toString)
  | .obj kvs => .ok (kvs.map fun kv => .str kv.1)
  | _ => .error (.typeError "object is not iterable")

/-- Decimal value of a digit list. -/
def digitsVal (ds : List Char) : Nat :=
  ds.foldl (fun a c => a * 10 + (c.toNat - '0'.toNat)) 0

/-- Truncation of a rational toward zero, as Python `int(float)`. -/
def ratTrunc (q : Rat) : Int :=
  if q.num < 0 then -((q.num.natAbs / q.den : Nat) : Int)
  else ((q.num.natAbs / q.den : Nat) : Int)

/-- The digit-run acceptance of Python `int(s)` after sign stripping. -/
def pyIntDigits (s : String) (digits : List Char) : Except PyError Int :=
  if digits ≠ [] ∧ digits.all Char.isDigit then
    .ok (digitsVal digits : Int)
  else .error (.valueError ("invalid literal for int: " ++ s))

/-- Python `int(s)` on a string: optional surrounding whitespace,
optional sign, then a non-empty digit run. -/
def pyIntOfStr (s : String) : Except PyError Int :=
  match s.trim.toList with
  | [] => .error (.valueError ("invalid literal for int: " ++ s))
  | c :: rest =>
      if c = '-' then
        match pyIntDigits s rest with
        | .ok n => .ok (-n)
        | .error e => .error e
      else if c = '+' then pyIntDigits s rest
      else pyIntDigits s (c :: rest)

/-- Python `int(x)` on a dynamic value. -/
def pyInt : Json → Except PyError Int
  | .bool b => .ok (if b then 1 else 0)
  | .num q => .ok (ratTrunc q)
  | .str s => pyIntOfStr s
  | .null => .error (.typeError "int() argument must be a string or a number, not NoneType")
  | .arr _ => .error (.typeError "int() argument must be a string or a number, not list")
  | .obj _ => .error (.typeError "int() argument must be a string or a number, not dict")

/-- Naive `datetime` value as produced by `datetime.strptime`. -/
structure PyDateTime where
  year : Nat
  month : Nat
  day : Nat
  hour : Nat
  minute : Nat
  second : Nat
deriving Repr, DecidableEq

def isLeapYear (y : Nat) : Bool :=
  y % 4 == 0 && (y % 100 != 0 || y % 400 == 0)

def daysInMonth (y m : Nat) : Nat :=
  if m = 2 then (if isLeapYear y then 29 else 28)
  else if m = 4 ∨ m = 6 ∨ m = 9 ∨ m = 11 then 30
  else 31

/-- The `datetime(...)` constructor validation performed by `strptime`
after field extraction (raises ValueError outside these ranges). -/
def mkDateTime (y mo d h mi s : Nat) : Option PyDateTime :=
  if 1 ≤ y ∧ y ≤ 9999 ∧ 1 ≤ mo ∧ mo ≤ 12 ∧ 1 ≤ d ∧ d ≤ daysInMonth y mo
      ∧ h ≤ 23 ∧ mi ≤ 59 ∧ s ≤ 59
  then some ⟨y, mo, d, h, mi, s⟩ else none

/-- Leading digit run of a character list. -/
def takeDigits : List Char → List Char × List Char
  | [] => ([], [])
  | c :: rest =>
      if c.isDigit then
        let (d, r) := takeDigits rest
        (c :: d, r)
      else ([], c :: rest)

/-- A 1-or-2 digit numeric field (the `%d/%m/%H/%M/%S` directives). -/
def parseNum2 (cs : List Char) : Option (Nat × List Char) :=
  let (ds, rest) := takeDigits cs
  if ds.length = 1 ∨ ds.length = 2 then some (digitsVal ds, rest) else none

/-- A 4 digit numeric field (the `%Y` directive). -/
def parseNum4 (cs : List Char) : Option (Nat × List Char) :=
  let (ds, rest) := takeDigits cs
  if ds.length = 4 then some (digitsVal ds, rest) else none

/-- A single literal separator character. -/
def chompLit (c : Char) : List Char → Option (List Char)
  | x :: rest => if x = c then some rest else none
  | [] => none

/-- One-or-more whitespace characters (a literal whitespace in a
`strptime` format string matches a whitespace run). -/
def chompSpaces (cs : List Char) : Option (List Char) :=
  match cs with
  | c :: rest =>
      if c.isWhitespace then some (rest.dropWhile Char.isWhitespace) else none
  | [] => none

/-- The time-of-day tail `%H:%M:%S` shared by the two formats. -/
def parseHMS (cs : List Char) : Option (Nat × Nat × Nat × List Char) := do
  let (h, cs) ← parseNum2 cs
  let cs ← chompLit ':' cs
  let (mi, cs) ← parseNum2 cs
  let cs ← chompLit ':' cs
  let (s, cs) ← parseNum2 cs
  pure (h, mi, s, cs)

/-- Model: `datetime.strptime(s, "%d/%m/%Y %H:%M:%S")`, as an `Option`
(`none` models the suppressed ValueError). -/
def strptimeDMY (s : String) : Option PyDateTime := do
  let cs := s.toList
  let (d, cs) ← parseNum2 cs
  let cs ← chompLit '/' cs
  let (mo, cs) ← parseNum2 cs
  let cs ← chompLit '/' cs
  let (y, cs) ← parseNum4 cs
  let cs ← chompSpaces cs
  let (h, mi, sec, cs) ← parseHMS cs
  if cs.isEmpty then mkDateTime y mo d h mi sec else none

/-- Model: `datetime.strptime(s, "%Y-%m-%d %H:%M:%S")`, as an `Option`. -/
def strptimeYMD (s : String) : Option PyDateTime := do
  let cs := s.toList
  let (y, cs) ← parseNum4 cs
  let cs ← chompLit '-' cs
  let (mo, cs) ← parseNum2 cs
  let cs ← chompLit '-' cs
  let (d, cs) ← parseNum2 cs
  let cs ← chompSpaces cs
  let (h, mi, sec, cs) ← parseHMS cs
  if cs.isEmpty then mkDateTime y mo d h mi sec else none

/-- Model: `const.DEFAULT_STATE`. -/
def DEFAULT_STATE : String := "NSW"

/-- Model: `dto.Price`: only `station_code` is actually converted by the source
(`int(...)`); the remaining fields hold whatever dynamic value the JSON
supplied, so they stay `Json`. `price_unit` is `data.get("priceunit")`
(Python `None`, i.e. `Json.null`, when absent). -/
structure Price where
  fuel_type : Json
  price : Json
  last_updated : Option PyDateTime
  price_unit : Json
  station_code : Option Int
deriving Repr

/-- Model: `strptime(data["lastupdated"], fmt)` under `suppress(ValueError)`:
KeyError (absent key, or non-dict data) and TypeError (non-string value)
escape the suppression; a failed parse is the suppressed ValueError. -/
def tryParseLastUpdated (data : Json) (fmt : String → Option PyDateTime) :
    Except PyError (Option PyDateTime) := do
  let v ← data.getItem "lastupdated"
  match v with
  | .str s => pure (fmt s)
  | _ => .error (.typeError "strptime() argument 1 must be str")

/-- Model: `Price.deserialize` (dto.py lines 25-47). The second format is only
attempted when the first left `lastupdated` as `None`; both attempts
subscript the same `data["lastupdated"]`, so evaluating it once is
equivalent. -/
def Price.deserialize (data : Json) : Except PyError Price := do
  let lu1 ← tryParseLastUpdated data strptimeDMY
  let lastupdated ←
    match lu1 with
    | some dt => pure (some dt)
    | none => tryParseLastUpdated data strptimeYMD
  let hasCode ← data.pyIn "stationcode"
  let station_code ←
    if hasCode then do
      let cj ← data.getItem "stationcode"
      let n ← pyInt cj
      pure (some n)
    else pure none
  let fuel_type ← data.getItem "fueltype"
  let price ← data.getItem "price"
  let price_unit ← data.pyGet "priceunit"
  pure { fuel_type := fuel_type, price := price, last_updated := lastupdated,
         price_unit := price_unit, station_code := station_code }

/-- Model: `dto.Station`: `code` is converted with `int(...)`; the other fields
hold the dynamic values as supplied. -/
structure Station where
  ident : Json
  brand : Json
  code : Int
  name : Json
  address : Json
  latitude : Json
  longitude : Json
  au_state : Json
deriving Repr

/-- Model: `Station.deserialize` (dto.py lines 76-88). Constructor arguments are
evaluated in source order. `au_state = data.get("state") or DEFAULT_STATE`. -/
def Station.deserialize (data : Json) : Except PyError Station := do
  let ident ← data.pyGet "stationid"
  let brand ← data.getItem "brand"
  let codeJ ← data.getItem "code"
  let code ← pyInt codeJ
  let name ← data.getItem "name"
  let address ← data.getItem "address"
  let loc1 ← data.getItem "location"
  let latitude ← loc1.getItem "latitude"
  let loc2 ← data.getItem "location"
  let longitude ← loc2.getItem "longitude"
  let stateRaw ← data.pyGet "state"
  let au_state := if stateRaw.isFalsy then Json.str DEFAULT_STATE else stateRaw
  pure { ident := ident, brand := brand, code := code, name := name,
         address := address, latitude := latitude, longitude := longitude,
         au_state := au_state }

/-- Model: `dto.StationPrice`. -/
structure StationPrice where
  price : Price
  station : Station
deriving Repr

/-- Model: `dto.FuelType`. -/
structure FuelType where
  code : Json
  name : Json
deriving Repr

def FuelType.deserialize (data : Json) : Except PyError FuelType := do
  let code ← data.getItem "code"
  let name ← data.getItem "name"
  pure { code := code, name := name }

/-- Model: `dto.TrendPeriod`. -/
structure TrendPeriod where
  period : Json
  description : Json
deriving Repr

def TrendPeriod.deserialize (data : Json) : Except PyError TrendPeriod := do
  let period ← data.getItem "period"
  let description ← data.getItem "description"
  pure { period := period, description := description }

/-- Model: `dto.SortField`. -/
structure SortField where
  code : Json
  name : Json
deriving Repr

def SortField.deserialize (data : Json) : Except PyError SortField := do
  let code ← data.getItem "code"
  let name ← data.getItem "name"
  pure { code := code, name := name }

/-- Model: `dto.GetFuelPricesResponse`. -/
structure GetFuelPricesResponse where
  stations : List Station
  prices : List Price
deriving Repr

/-- Model: `GetFuelPricesResponse.deserialize` (dto.py lines 288-296). -/
def GetFuelPricesResponse.deserialize (data : Json) :
    Except PyError GetFuelPricesResponse := do
  let sv ← data.getItem "stations"
  let sItems ← sv.pyIter
  let stations ← sItems.mapM Station.deserialize
  let pv ← data.getItem "prices"
  let pItems ← pv.pyIter
  let prices ← pItems.mapM Price.deserialize
  pure { stations := stations, prices := prices }

/-- Model: `dto.GetReferenceDataResponse`. -/
structure GetReferenceDataResponse where
  stations : List Station
  brands : List Json
  fuel_types : List FuelType
  trend_periods : List TrendPeriod
  sort_fields : List SortField
deriving Repr

/-- Model: `GetReferenceDataResponse.deserialize` (dto.py lines 253-271). -/
def GetReferenceDataResponse.deserialize (data : Json) :
    Except PyError GetReferenceDataResponse := do
  let sv ← data.getItem "stations"
  let sItemsJ ← sv.getItem "items"
  let sItems ← sItemsJ.pyIter
  let stations ← sItems.mapM Station.deserialize
  let bv ← data.getItem "brands"
  let bItemsJ ← bv.getItem "items"
  let bItems ← bItemsJ.pyIter
  let brands ← bItems.mapM (fun x => x.getItem "name")
  let fv ← data.getItem "fueltypes"
  let fItemsJ ← fv.getItem "items"
  let fItems ← fItemsJ.pyIter
  let fuel_types ← fItems.mapM FuelType.deserialize
  let tv ← data.getItem "trendperiods"
  let tItemsJ ← tv.getItem "items"
  let tItems ← tItemsJ.pyIter
  let trend_periods ← tItems.mapM TrendPeriod.deserialize
  let ov ← data.getItem "sortfields"
  let oItemsJ ← ov.getItem "items"
  let oItems ← oItemsJ.pyIter
  let sort_fields ← oItems.mapM SortField.deserialize
  pure { stations := stations, brands := brands, fuel_types := fuel_types,
         trend_periods := trend_periods, sort_fields := sort_fields }

/-!
## Client layer (`client.py`)
-/

/-- The three public error kinds of the client, plus `raw` for a Python
exception that escapes uncaught (the source never intends this, but the
embedding must record where it can happen).  `api` is
`NSWFuelApiClientError`, `auth` is `NSWFuelApiClientAuthError`, `conn` is
`NSWFuelApiClientConnectionError`.  Messages are dynamic values because
the source sometimes passes the raw `errorDetails` payload through. -/
inductive Err where
  | auth (msg : Json) : Err
  | conn (msg : Json) : Err
  | api (msg : Json) : Err
  | raw (e : PyError) : Err
deriving Repr

/-- Python `a or b` on dynamic values (used for `details or msg`). -/
def pyOr (a b : Json) : Json := if a.isFalsy then b else a

/-- Mutable state of a client instance: `self._token` and
`self._token_expiry`.  The token slot is `Option Json` because the stored
`access_token` is whatever dynamic value the token response supplied. -/
structure ClientState where
  token : Option Json
  tokenExpiry : Rat
deriving Repr

/-- Model: `not self._token` is false, i.e. a token is held and truthy. -/
def tokenHeld (t : Option Json) : Bool :=
  match t with
  | none => false
  | some j => !j.isFalsy

/-- The refresh condition of `_async_get_token` (client.py line 100):
`not self._token or now > (self._token_expiry - 60)`. -/
def needsRefresh (st : ClientState) (now : Rat) : Bool :=
  !tokenHeld st.token || now > st.tokenExpiry - 60

/-- A response body either parses as JSON (to `j`) or its text is not
valid JSON.  This abstracts the JSON grammar: every concrete body falls
in exactly one case, and both the token path and the data path
(`response.json(content_type=None)`) attempt the same text-to-JSON
parse. -/
inductive Body where
  | jsonBody (j : Json) : Body
  | textBody (s : String) : Body
deriving Repr

/-- A response of the authorization endpoint: HTTP status, body, and the
reason phrase carried by `aiohttp.ClientResponseError.message`. -/
structure TokenResponse where
  status : Nat
  body : Body
  reason : String
deriving Repr

/-- A response of a data endpoint. -/
structure DataResponse where
  status : Nat
  body : Body
  reason : String
deriving Repr

/-- Outcome of issuing one data HTTP call: a response, or a transport
exception (connection failure, timeout, ...) with its message. -/
inductive DataOutcome where
  | resp (r : DataResponse) : DataOutcome
  | exn (msg : String) : DataOutcome
deriving Repr

/-- Observable events of one pipeline call: a credential-exchange
request, a data HTTP attempt, or an `asyncio.sleep` (milliseconds). -/
inductive Ev where
  | tokenRequest : Ev
  | httpAttempt : Ev
  | sleepMs (n : Nat) : Ev
deriving Repr, DecidableEq

/-- Model: `_async_get_token` (client.py lines 89-162).
Inputs: current state, `time.time()` value, and the token-endpoint
response the network would serve if the refresh request is made.
Returns the events performed together with either an error or the new
state and the returned token value.

`raise_for_status` raises `ClientResponseError` exactly for
`status >= 400` (aiohttp's documented behaviour); a JSON parse failure
raises `NSWFuelApiClientError` inside the `try`, which the outer
`except Exception` re-wraps; the `access_token` / `expires_in`
processing happens after the `try`, so `int()` failures there escape
uncaught (modelled as `Err.raw`). -/
def asyncGetToken (st : ClientState) (now : Rat) (tr : TokenResponse) :
    List Ev × Except Err (ClientState × Option Json) :=
  if needsRefresh st now then
    ([.tokenRequest],
      if tr.status = 401 then
        .error (.auth (.str "Invalid NSW Fuel Check API credentials"))
      else if tr.status ≥ 400 then
        .error (.api (.str ("Token request failed with status " ++
          toString tr.status ++ ": " ++ tr.reason)))
      else
        match tr.body with
        | .textBody _ =>
            .error (.api (.str
              "Unexpected error fetching token: Failed to parse token response JSON"))
        | .jsonBody result =>
            match result.pyGet "access_token" with
            | .error e => .error (.raw e)
            | .ok accessToken =>
                if accessToken.isFalsy then
                  .error (.api (.str "No access token in NSW Fuel Check token response"))
                else
                  match result.pyGetD "expires_in" (.num 3600) with
                  | .error e => .error (.raw e)
                  | .ok ej =>
                      match pyInt ej with
                      | .error e => .error (.raw e)
                      | .ok expiresIn =>
                          .ok ({ token := some accessToken,
                                 tokenExpiry := now + (expiresIn : Rat) },
                               some accessToken))
  else ([], .ok (st, st.token))

/-- Model: `_extract_error_details` (client.py lines 75-86).  `ed[0].get(...)`
on a non-dict element raises AttributeError, which escapes this helper
(the caller wraps it). -/
def extractErrorDetails (data : Json) : Except PyError Json :=
  match data with
  | .obj kvs =>
      match (dictLookup kvs "errorDetails").getD .null with
      | .arr (e0 :: _) => do
          let d ← e0.pyGet "description"
          if d.isFalsy then e0.pyGet "message" else pure d
      | .obj okvs => do
          let ed : Json := .obj okvs
          let d ← ed.pyGet "description"
          if d.isFalsy then ed.pyGet "message" else pure d
      | _ => .ok .null
  | _ => .ok .null

/-- Model: `_handle_http_error` (client.py lines 202-257).  Returns the updated
state and whether the caller should retry; raises (returns `.error`) for
the terminal statuses.  `HTTP_UNAUTHORIZED = 401`,
`HTTP_TIMEOUT_ERROR = 408`, `HTTP_INTERNAL_SERVER_ERROR = 500`,
`HTTP_CLIENT_SERVER_ERROR = 400` (const.py). -/
def handleHttpError (st : ClientState) (data : Json) (status : Nat)
    (reason : String) (attempt maxRetries : Nat) :
    Except Err (ClientState × Bool) :=
  match extractErrorDetails data with
  | .error e => .error (.raw e)
  | .ok details =>
      if status = 401 then
        if attempt < maxRetries then .ok ({ st with token := none }, true)
        else .error (.auth (pyOr details (.str "Authentication failed during request.")))
      else if status = 408 then
        if attempt < maxRetries then .ok (st, true)
        else .error (.conn (pyOr details (.str "Request timed out after retry.")))
      else if status ≥ 500 then
        .error (.conn (pyOr details
          (.str ("Server error " ++ toString status ++ ": " ++ reason))))
      else if status ≥ 400 then
        .error (.api (pyOr details
          (.str ("HTTP error " ++ toString status ++ ": " ++ reason))))
      else .ok (st, false)

/-- Model: `_parse_response`: JSON when the body parses, else the raw text. -/
def parseResponse (b : Body) : Json :=
  match b with
  | .jsonBody j => j
  | .textBody s => .str s

/-- One iteration of the retry loop of `_async_request` (client.py lines
262-320): get a token (outside the `try`, so its errors propagate
untouched), fail if it is falsy, issue the HTTP call, parse, classify.
Result `some data` means `return data`; `none` means `continue` (after
the 500 ms sleep recorded in the event list).  Domain errors raised by
`_handle_http_error` re-raise unchanged; any other exception inside the
`try` (transport errors, AttributeError from `_extract_error_details`)
is wrapped into `NSWFuelApiClientError(str(err))`. -/
def requestAttemptBody (st : ClientState) (now : Rat) (tr : TokenResponse)
    (dr : DataOutcome) (attempt maxRetries : Nat) :
    List Ev × Except Err (ClientState × Option Json) :=
  match asyncGetToken st now tr with
  | (tevs, .error e) => (tevs, .error e)
  | (tevs, .ok (st1, tok)) =>
      if !tokenHeld tok then
        (tevs, .error (.api (.str "No access token available for NSW Fuel API request")))
      else
        match dr with
        | .exn msg => (tevs ++ [.httpAttempt], .error (.api (.str msg)))
        | .resp r =>
            let data := parseResponse r.body
            match handleHttpError st1 data r.status r.reason attempt maxRetries with
            | .error (.raw e) =>
                (tevs ++ [.httpAttempt], .error (.api (.str (pyErrStr e))))
            | .error e => (tevs ++ [.httpAttempt], .error e)
            | .ok (st2, true) =>
                (tevs ++ [.httpAttempt, .sleepMs 500], .ok (st2, none))
            | .ok (st2, false) => (tevs ++ [.httpAttempt], .ok (st2, some data))

/-- The `while attempt <= max_retries` loop of `_async_request`.
`remaining` counts the loop iterations still allowed, i.e.
`max_retries + 1 - attempt`; `remaining = 0` is exactly the loop
condition failing, which falls through to the defensive
`NSWFuelApiClientError("Failed to perform http request")`.
`env` gives, per attempt index, the token-endpoint response and the
data-call outcome the network would serve. -/
def requestLoop (now : Rat) (env : Nat → TokenResponse × DataOutcome)
    (maxRetries : Nat) :
    Nat → Nat → ClientState → List Ev × Except Err (ClientState × Json)
  | 0, _, _ => ([], .error (.api (.str "Failed to perform http request")))
  | remaining + 1, attempt, st =>
      match requestAttemptBody st now (env attempt).1 (env attempt).2
          attempt maxRetries with
      | (evs, .error e) => (evs, .error e)
      | (evs, .ok (st', some d)) => (evs, .ok (st', d))
      | (evs, .ok (st', none)) =>
          match requestLoop now env maxRetries remaining (attempt + 1) st' with
          | (evs', r') => (evs ++ evs', r')

/-- Model: `_async_request` (client.py lines 165-324): `max_retries = 1`,
`attempt = 0`, so the loop bound `remaining = max_retries + 1 - attempt`
is `2`. -/
def asyncRequest (st : ClientState) (now : Rat)
    (env : Nat → TokenResponse × DataOutcome) :
    List Ev × Except Err (ClientState × Json) :=
  requestLoop now env 1 2 0 st

/-- Model: `get_fuel_prices` (client.py lines 327-368), as a function of the
pipeline outcome.  Only the `_async_request` call sits inside the
`try`: the three domain error kinds re-raise unchanged and a raw leak
from the token path is wrapped there; the shape validation raises
`NSWFuelApiClientError` itself, but the final
`GetFuelPricesResponse.deserialize` runs after the `try`/`except`, so
its exceptions escape uncaught (`Err.raw`). -/
def getFuelPrices (pipeline : Except Err Json) :
    Except Err GetFuelPricesResponse :=
  match pipeline with
  | .error (.raw e) =>
      .error (.api (.str ("Unexpected error fetching fuel prices: " ++ pyErrStr e)))
  | .error e => .error e
  | .ok response =>
      if response.isFalsy then
        .error (.api (.str "No data returned from NSW Fuel API"))
      else
        match response.pyIn "prices" with
        | .error e => .error (.raw e)
        | .ok hasPrices =>
            if !hasPrices then
              .error (.api (.str "Malformed response: missing required fields"))
            else
              match response.pyIn "stations" with
              | .error e => .error (.raw e)
              | .ok hasStations =>
                  if !hasStations then
                    .error (.api (.str "Malformed response: missing required fields"))
                  else
                    match GetFuelPricesResponse.deserialize response with
                    | .error e => .error (.raw e)
                    | .ok r => .ok r

/-- Model: `get_fuel_prices_for_station` (client.py lines 371-425), as a
function of the pipeline outcome.  The per-price `Price.deserialize`
list comprehension runs after the `try`/`except`, so its exceptions
escape uncaught. -/
def getFuelPricesForStation (stationCode : String)
    (pipeline : Except Err Json) : Except Err (List Price) :=
  match pipeline with
  | .error (.raw e) =>
      .error (.api (.str ("Unexpected failure getting station prices for " ++
        stationCode ++ ": " ++ pyErrStr e)))
  | .error e => .error e
  | .ok response =>
      if response.isFalsy then
        .error (.api (.str ("Malformed or empty response for station " ++ stationCode)))
      else
        match response.pyIn "prices" with
        | .error e => .error (.raw e)
        | .ok hasPrices =>
            if !hasPrices then
              .error (.api (.str ("Malformed or empty response for station " ++
                stationCode)))
            else
              match response.pyGet "prices" with
              | .error e => .error (.raw e)
              | .ok pricesData =>
                  if pricesData.isFalsy then
                    .error (.api (.str ("No price data found for station " ++
                      stationCode)))
                  else
                    match pricesData.pyIter with
                    | .error e => .error (.raw e)
                    | .ok items =>
                        match items.mapM Price.deserialize with
                        | .error e => .error (.raw e)
                        | .ok ps => .ok ps

/-- The station lookup of `get_fuel_prices_within_radius` (client.py
lines 510-513): `{int(station["code"]): Station.deserialize(station)
for station in stations_data}`, key expression evaluated before the
value.  Runs after the `try`/`except`, so its exceptions escape. -/
def buildStationsMap (stationsData : Json) :
    Except PyError (List (Int × Station)) := do
  let items ← stationsData.pyIter
  items.mapM fun s => do
    let codeJ ← s.getItem "code"
    let code ← pyInt codeJ
    let stn ← Station.deserialize s
    pure (code, stn)

/-- Python dict lookup on the station map: with duplicate codes the
later comprehension entry wins. -/
def dictGet (m : List (Int × Station)) (c : Int) : Option Station :=
  (m.filter (fun kv => kv.1 = c)).getLast?.map (fun kv => kv.2)

/-- The join loop of `get_fuel_prices_within_radius` (client.py lines
516-528): per price entry, deserialize and pair with the station found
by code; `KeyError` / `TypeError` / `ValueError` skip the entry, any
other exception escapes. -/
def joinPrices (smap : List (Int × Station)) :
    List Json → Except PyError (List StationPrice)
  | [] => .ok []
  | p :: rest =>
      match Price.deserialize p with
      | .ok price =>
          let tail := joinPrices smap rest
          match price.station_code with
          | some c =>
              match dictGet smap c with
              | some stn =>
                  match tail with
                  | .ok l => .ok ({ price := price, station := stn } :: l)
                  | .error e => .error e
              | none => tail
          | none => tail
      | .error (.keyError _) => joinPrices smap rest
      | .error (.typeError _) => joinPrices smap rest
      | .error (.valueError _) => joinPrices smap rest
      | .error e => .error e

/-- Model: `get_fuel_prices_within_radius` (client.py lines 428-540), as a
function of the pipeline outcome (`latlong` renders the
`f"({latitude}, {longitude})"` of the error messages). -/
def getFuelPricesWithinRadius (latlong : String)
    (pipeline : Except Err Json) : Except Err (List StationPrice) :=
  match pipeline with
  | .error (.raw e) =>
      .error (.api (.str ("Unexpected error fetching nearby prices for " ++
        latlong ++ ": " ++ pyErrStr e)))
  | .error e => .error e
  | .ok response =>
      if response.isFalsy then
        .error (.api (.str ("Malformed or empty response for location " ++ latlong)))
      else
        match response.pyIn "stations" with
        | .error e => .error (.raw e)
        | .ok hasStations =>
            if !hasStations then
              .error (.api (.str ("Malformed or empty response for location " ++
                latlong)))
            else
              match response.pyIn "prices" with
              | .error e => .error (.raw e)
              | .ok hasPrices =>
                  if !hasPrices then
                    .error (.api (.str ("Malformed or empty response for location " ++
                      latlong)))
                  else
                    match response.pyGet "stations" with
                    | .error e => .error (.raw e)
                    | .ok stationsData =>
                        match response.pyGet "prices" with
                        | .error e => .error (.raw e)
                        | .ok pricesData =>
                            if stationsData.isFalsy || pricesData.isFalsy then
                              .error (.api (.str
                                ("No stations/prices found for location " ++ latlong)))
                            else
                              match buildStationsMap stationsData with
                              | .error e => .error (.raw e)
                              | .ok smap =>
                                  match pricesData.pyIter with
                                  | .error e => .error (.raw e)
                                  | .ok items =>
                                      match joinPrices smap items with
                                      | .error e => .error (.raw e)
                                      | .ok l => .ok l

/-- Model: `get_reference_data` (client.py lines 543-595), as a function of the
pipeline outcome.  The final deserialize runs after the `try`/`except`,
so its exceptions escape uncaught. -/
def getReferenceData (pipeline : Except Err Json) :
    Except Err GetReferenceDataResponse :=
  match pipeline with
  | .error (.raw e) =>
      .error (.api (.str ("Unexpected failure fetching reference data: " ++
        pyErrStr e)))
  | .error e => .error e
  | .ok response =>
      if response.isFalsy then
        .error (.api (.str "Empty response from reference data endpoint"))
      else
        match GetReferenceDataResponse.deserialize response with
        | .error e => .error (.raw e)
        | .ok r => .ok r

/-!
## Helper lemmas
-/

@[simp] theorem exceptBind_ok {ε α β : Type} (a : α) (f : α → Except ε β) :
    (Except.ok a >>= f) = f a := rfl

@[simp] theorem exceptBind_err {ε α β : Type} (e : ε) (f : α → Except ε β) :
    ((Except.error e : Except ε α) >>= f) = .error e := rfl

@[simp] theorem exceptPure {ε α : Type} (a : α) :
    (pure a : Except ε α) = .ok a := rfl

theorem dictLookup_isSome_of_some {kvs : List (String × Json)} {k : String}
    {v : Json} (h : dictLookup kvs k = some v) :
    (dictLookup kvs k).isSome = true := by rw [h]; rfl

theorem asyncGetToken_noToken (st : ClientState) (h : st.token = none)
    (now : Rat) (tr : TokenResponse) :
    asyncGetToken st now tr = ([.tokenRequest], (asyncGetToken st now tr).2) := by
  have hn : needsRefresh st now = true := by
    unfold needsRefresh tokenHeld
    rw [h]
    simp
  unfold asyncGetToken
  rw [if_pos hn]

theorem asyncGetToken_trace (st : ClientState) (now : Rat)
    (tr : TokenResponse) :
    (asyncGetToken st now tr).1 = [] ∨
    (asyncGetToken st now tr).1 = [Ev.tokenRequest] := by
  unfold asyncGetToken
  by_cases hn : needsRefresh st now = true
  · rw [if_pos hn]; exact Or.inr rfl
  · rw [if_neg hn]; exact Or.inl rfl

theorem handleHttpError_401 (st : ClientState) (data : Json) (reason : String)
    (a m : Nat) (d : Json) (hd : extractErrorDetails data = .ok d) :
    handleHttpError st data 401 reason a m =
      if a < m then .ok ({ st with token := none }, true)
      else .error (.auth (pyOr d (.str "Authentication failed during request."))) := by
  unfold handleHttpError
  rw [hd]
  simp

theorem handleHttpError_408 (st : ClientState) (data : Json) (reason : String)
    (a m : Nat) (d : Json) (hd : extractErrorDetails data = .ok d) :
    handleHttpError st data 408 reason a m =
      if a < m then .ok (st, true)
      else .error (.conn (pyOr d (.str "Request timed out after retry."))) := by
  unfold handleHttpError
  rw [hd]
  simp

theorem handleHttpError_5xx (st : ClientState) (data : Json) (status : Nat)
    (reason : String) (a m : Nat) (d : Json)
    (hd : extractErrorDetails data = .ok d) (hs : 500 ≤ status) :
    handleHttpError st data status reason a m =
      .error (.conn (pyOr d (.str ("Server error " ++ toString status ++
        ": " ++ reason)))) := by
  unfold handleHttpError
  simp only [hd]
  rw [if_neg (by omega : ¬status = 401), if_neg (by omega : ¬status = 408),
    if_pos (by omega : status ≥ 500)]

theorem handleHttpError_4xx (st : ClientState) (data : Json) (status : Nat)
    (reason : String) (a m : Nat) (d : Json)
    (hd : extractErrorDetails data = .ok d) (h1 : 400 ≤ status)
    (h2 : status < 500) (h3 : status ≠ 401) (h4 : status ≠ 408) :
    handleHttpError st data status reason a m =
      .error (.api (pyOr d (.str ("HTTP error " ++ toString status ++
        ": " ++ reason)))) := by
  unfold handleHttpError
  simp only [hd]
  rw [if_neg h3, if_neg h4, if_neg (by omega : ¬status ≥ 500),
    if_pos (by omega : status ≥ 400)]

theorem handleHttpError_ok (st : ClientState) (data : Json) (status : Nat)
    (reason : String) (a m : Nat) (d : Json)
    (hd : extractErrorDetails data = .ok d) (h : status < 400) :
    handleHttpError st data status reason a m = .ok (st, false) := by
  unfold handleHttpError
  simp only [hd]
  rw [if_neg (by omega : ¬status = 401), if_neg (by omega : ¬status = 408),
    if_neg (by omega : ¬status ≥ 500), if_neg (by omega : ¬status ≥ 400)]

/-- Retrying is only ever signalled while `attempt < max_retries`. -/
theorem handleHttpError_retry_lt (st st2 : ClientState) (data : Json)
    (status : Nat) (reason : String) (a m : Nat)
    (h : handleHttpError st data status reason a m = .ok (st2, true)) :
    a < m := by
  unfold handleHttpError at h
  cases hx : extractErrorDetails data with
  | error e => rw [hx] at h; cases h
  | ok d =>
    simp only [hx] at h
    by_cases h401 : status = 401
    · rw [if_pos h401] at h
      by_cases hlt : a < m
      · exact hlt
      · rw [if_neg hlt] at h; cases h
    · rw [if_neg h401] at h
      by_cases h408 : status = 408
      · rw [if_pos h408] at h
        by_cases hlt : a < m
        · exact hlt
        · rw [if_neg hlt] at h; cases h
      · rw [if_neg h408] at h
        by_cases h5 : status ≥ 500
        · rw [if_pos h5] at h; cases h
        · rw [if_neg h5] at h
          by_cases h4 : status ≥ 400
          · rw [if_pos h4] at h; cases h
          · rw [if_neg h4] at h; cases h

theorem requestAttemptBody_resp (st st1 : ClientState) (now : Rat)
    (tr : TokenResponse) (dr : DataOutcome) (a m : Nat) (tevs : List Ev)
    (t0 : Json) (r : DataResponse)
    (h0 : asyncGetToken st now tr = (tevs, .ok (st1, some t0)))
    (ht0 : t0.isFalsy = false) (hdr : dr = .resp r) :
    requestAttemptBody st now tr dr a m =
      (match handleHttpError st1 (parseResponse r.body) r.status r.reason a m with
       | .error (.raw e) => (tevs ++ [.httpAttempt], .error (.api (.str (pyErrStr e))))
       | .error e => (tevs ++ [.httpAttempt], .error e)
       | .ok (st2, true) => (tevs ++ [.httpAttempt, .sleepMs 500], .ok (st2, none))
       | .ok (st2, false) =>
           (tevs ++ [.httpAttempt], .ok (st2, some (parseResponse r.body)))) := by
  unfold requestAttemptBody
  rw [h0, hdr]
  simp [tokenHeld, ht0]

/-- One-step unfolding of the retry loop. -/
theorem requestLoop_succ (now : Rat) (env : Nat → TokenResponse × DataOutcome)
    (mr r a : Nat) (st : ClientState) :
    requestLoop now env mr (r + 1) a st =
      (match requestAttemptBody st now (env a).1 (env a).2 a mr with
       | (evs, .error e) => (evs, .error e)
       | (evs, .ok (st', some d)) => (evs, .ok (st', d))
       | (evs, .ok (st', none)) =>
           match requestLoop now env mr r (a + 1) st' with
           | (evs', r') => (evs ++ evs', r')) := rfl

/-!
## Claims
-/

/-- Claim **C1** (code bug evidence).  The spec says every unexpected internal
failure during shape validation or deserialization is wrapped into
`ApiError`; but `GetFuelPricesResponse.deserialize` runs after the
`try`/`except` of `get_fuel_prices`, so on a payload whose station
object lacks the required `brand` key the raw `KeyError` escapes to the
caller unwrapped. -/
theorem getFuelPrices_leaks_raw_keyError :
    getFuelPrices (.ok (.obj [("prices", .arr []),
        ("stations", .arr [.obj [("code", .num 1)]])]))
      = .error (.raw (.keyError "brand")) := rfl

/-- Claim **C3** (counterexample).  The claim says `Price.deserialize` also
succeeds (with `last_updated = null`) when the `lastupdated` field is
absent; in the source `data["lastupdated"]` raises `KeyError`, which
`contextlib.suppress(ValueError)` does not swallow. -/
theorem price_deserialize_missing_lastupdated_raises :
    Price.deserialize (.obj [("fueltype", .str "E10"), ("price", .num 150)])
      = .error (.keyError "lastupdated") := rfl

/-- Claim **C3** (amended).  When the `lastupdated` key is present with a
string value that parses in neither accepted format, `Price.deserialize`
succeeds and returns `last_updated = none` (the other required fields
being well-formed); the field never causes a failure in that case. -/
theorem price_deserialize_unparseable_lastupdated_ok
    (kvs : List (String × Json)) (su : String) (fv pv : Json)
    (sc : Option Int)
    (hl : dictLookup kvs "lastupdated" = some (.str su))
    (hp1 : strptimeDMY su = none) (hp2 : strptimeYMD su = none)
    (hf : dictLookup kvs "fueltype" = some fv)
    (hpr : dictLookup kvs "price" = some pv)
    (hsc : (dictLookup kvs "stationcode" = none ∧ sc = none) ∨
      (∃ cj n, dictLookup kvs "stationcode" = some cj ∧ pyInt cj = .ok n ∧
        sc = some n)) :
    Price.deserialize (.obj kvs) =
      .ok { fuel_type := fv, price := pv, last_updated := none,
            price_unit := (dictLookup kvs "priceunit").getD .null,
            station_code := sc } := by
  unfold Price.deserialize tryParseLastUpdated
  simp only [Json.getItem, Json.pyIn, Json.pyGet, hl, exceptBind_ok,
    exceptBind_err, exceptPure, hp1, hp2]
  rcases hsc with ⟨habs, hscn⟩ | ⟨cj, n, hpres, hint, hscs⟩
  · simp only [habs, Option.isSome_none, hscn, Bool.false_eq_true, if_false,
      exceptBind_ok, hf, hpr, exceptPure]
  · simp only [hpres, Option.isSome_some, if_true, exceptBind_ok, hint,
      hscs, hf, hpr, exceptPure]

/-- Claim **C3** (witness): a price object whose `lastupdated` is an
unparseable string deserializes successfully with `last_updated`
empty. -/
theorem price_deserialize_unparseable_lastupdated_ok_witness :
    Price.deserialize (.obj [("lastupdated", .str "not a date"),
      ("fueltype", .str "E10"), ("price", .num 150)])
      = .ok { fuel_type := .str "E10", price := .num 150,
              last_updated := none, price_unit := .null,
              station_code := none } :=
  (price_deserialize_unparseable_lastupdated_ok
    [("lastupdated", .str "not a date"), ("fueltype", .str "E10"),
     ("price", .num 150)] "not a date" (.str "E10") (.num 150) none
    rfl rfl rfl rfl rfl (Or.inl ⟨rfl, rfl⟩)).trans rfl

/-- Claim **C9** (counterexample).  The claim says any non-2xx token-endpoint
status raises `ApiError`; but `raise_for_status` only raises for
statuses `>= 400`, so a `302` response whose body carries a valid
`access_token` is accepted and the token stored. -/
theorem getToken_302_stores_token :
    asyncGetToken ⟨none, 0⟩ 1000
        ⟨302, .jsonBody (.obj [("access_token", .str "t2"),
          ("expires_in", .num 100)]), "Found"⟩
      = ([.tokenRequest], .ok (⟨some (.str "t2"), 1100⟩, some (.str "t2"))) := by
  unfold asyncGetToken
  simp [needsRefresh, tokenHeld, Json.pyGet, Json.pyGetD, dictLookup,
    Json.isFalsy, pyInt, ratTrunc]
  norm_num

/-- Claim **C2** (counterexample).  The claim requires a credential-exchange
request exactly when no token is held or `now >= expiry - 60`; the
source tests `now > expiry - 60` strictly, so at `now = expiry - 60`
with a held token no request is performed and the state is returned
untouched. -/
theorem getToken_boundary_no_refresh :
    asyncGetToken ⟨some (.str "tok"), 1000⟩ 940 ⟨200, .textBody "x", "OK"⟩
      = ([], .ok (⟨some (.str "tok"), 1000⟩, some (.str "tok")))
    ∧ (940 : Rat) ≥ 1000 - 60 := by
  constructor
  · unfold asyncGetToken
    rw [if_neg]
    simp [needsRefresh, tokenHeld, Json.isFalsy]
    norm_num
  · norm_num

/-- Claim **C2** (amended).  `getToken` performs the credential-exchange
request if and only if no (truthy) token is held or
`now > stored expiry - 60` (strict); otherwise it returns the stored
token value with an unchanged state and performs no network request. -/
theorem getToken_refresh_iff (st : ClientState) (now : Rat)
    (tr : TokenResponse) :
    ((asyncGetToken st now tr).1 = [Ev.tokenRequest] ↔
      (tokenHeld st.token = false ∨ now > st.tokenExpiry - 60)) ∧
    (tokenHeld st.token = true → now ≤ st.tokenExpiry - 60 →
      asyncGetToken st now tr = ([], .ok (st, st.token))) := by
  by_cases hc : needsRefresh st now = true
  · have h1 : (asyncGetToken st now tr).1 = [Ev.tokenRequest] := by
      unfold asyncGetToken; rw [if_pos hc]
    have hrhs : tokenHeld st.token = false ∨ now > st.tokenExpiry - 60 := by
      have hc' := hc
      unfold needsRefresh at hc'
      simpa using hc'
    refine ⟨⟨fun _ => hrhs, fun _ => h1⟩, fun hheld hle => ?_⟩
    rcases hrhs with h | h
    · rw [hheld] at h; cases h
    · exact absurd h (not_lt.mpr hle)
  · have heq : asyncGetToken st now tr = ([], .ok (st, st.token)) := by
      unfold asyncGetToken; rw [if_neg hc]
    have hrhsf : ¬(tokenHeld st.token = false ∨ now > st.tokenExpiry - 60) := by
      intro hor
      apply hc
      unfold needsRefresh
      rcases hor with h | h
      · rw [h]; rfl
      · rw [decide_eq_true h, Bool.or_true]
    refine ⟨⟨fun hev => ?_, fun hor => absurd hor hrhsf⟩, fun _ _ => heq⟩
    rw [heq] at hev
    cases hev

/-- Claim **C2** (witness): a token with ample remaining lifetime is returned
as-is with no network request. -/
theorem getToken_refresh_iff_witness :
    asyncGetToken ⟨some (.str "tok"), 1000⟩ 800 ⟨200, .textBody "x", "OK"⟩
      = ([], .ok (⟨some (.str "tok"), 1000⟩, some (.str "tok"))) :=
  (getToken_refresh_iff ⟨some (.str "tok"), 1000⟩ 800
    ⟨200, .textBody "x", "OK"⟩).2 rfl (by norm_num)

/-- Claim **C9** (amended).  Token-endpoint outcome classification, with the
claim's "any other non-2xx status" corrected to "any other status
`>= 400`" (the threshold of `raise_for_status`): 401 raises `AuthError`;
any other status `>= 400` raises `ApiError` wrapping status and reason;
a body that is not valid JSON raises `ApiError`; a parsed body lacking
`access_token` raises `ApiError`; otherwise the token is stored with
expiry `now + expires_in`, defaulting `expires_in` to 3600 when
absent. -/
theorem getToken_outcome_classification (st : ClientState) (now : Rat)
    (tr : TokenResponse) (href : needsRefresh st now = true) :
    (tr.status = 401 →
      (asyncGetToken st now tr).2 =
        .error (.auth (.str "Invalid NSW Fuel Check API credentials"))) ∧
    (tr.status ≠ 401 → tr.status ≥ 400 →
      (asyncGetToken st now tr).2 =
        .error (.api (.str ("Token request failed with status " ++
          toString tr.status ++ ": " ++ tr.reason)))) ∧
    (tr.status < 400 → ∀ s, tr.body = .textBody s →
      (asyncGetToken st now tr).2 =
        .error (.api (.str
          "Unexpected error fetching token: Failed to parse token response JSON"))) ∧
    (tr.status < 400 → ∀ kvs, tr.body = .jsonBody (.obj kvs) →
      dictLookup kvs "access_token" = none →
      (asyncGetToken st now tr).2 =
        .error (.api (.str "No access token in NSW Fuel Check token response"))) ∧
    (tr.status < 400 → ∀ kvs a eIn,
      tr.body = .jsonBody (.obj kvs) →
      dictLookup kvs "access_token" = some a → a.isFalsy = false →
      ((dictLookup kvs "expires_in" = none ∧ eIn = 3600) ∨
        (∃ ej, dictLookup kvs "expires_in" = some ej ∧ pyInt ej = .ok eIn)) →
      asyncGetToken st now tr =
        ([.tokenRequest], .ok (⟨some a, now + (eIn : Rat)⟩, some a))) := by
  have hunf : asyncGetToken st now tr =
      ([.tokenRequest],
        if tr.status = 401 then
          .error (.auth (.str "Invalid NSW Fuel Check API credentials"))
        else if tr.status ≥ 400 then
          .error (.api (.str ("Token request failed with status " ++
            toString tr.status ++ ": " ++ tr.reason)))
        else
          match tr.body with
          | .textBody _ =>
              .error (.api (.str
                "Unexpected error fetching token: Failed to parse token response JSON"))
          | .jsonBody result =>
              match result.pyGet "access_token" with
              | .error e => .error (.raw e)
              | .ok accessToken =>
                  if accessToken.isFalsy then
                    .error (.api
                      (.str "No access token in NSW Fuel Check token response"))
                  else
                    match result.pyGetD "expires_in" (.num 3600) with
                    | .error e => .error (.raw e)
                    | .ok ej =>
                        match pyInt ej with
                        | .error e => .error (.raw e)
                        | .ok expiresIn =>
                            .ok ({ token := some accessToken,
                                   tokenExpiry := now + (expiresIn : Rat) },
                                 some accessToken)) := by
    unfold asyncGetToken; rw [if_pos href]
  refine ⟨fun h401 => ?_, fun hne h400 => ?_, fun hlt s hb => ?_,
    fun hlt kvs hb habs => ?_, fun hlt kvs a eIn hb ha haf hexp => ?_⟩
  · rw [hunf]; simp only [if_pos h401]
  · rw [hunf]; simp only [if_neg hne, if_pos h400]
  · rw [hunf]
    simp only [if_neg (by omega : ¬tr.status = 401),
      if_neg (by omega : ¬tr.status ≥ 400), hb]
  · rw [hunf]
    simp [hb, Json.pyGet, habs, Json.isFalsy,
      if_neg (by omega : ¬tr.status = 401),
      if_neg (by omega : ¬tr.status ≥ 400)]
  · rw [hunf]
    simp only [if_neg (by omega : ¬tr.status = 401),
      if_neg (by omega : ¬tr.status ≥ 400), hb, Json.pyGet, Json.pyGetD,
      ha, Option.getD_some, haf, Bool.false_eq_true, if_false]
    rcases hexp with ⟨habs, he⟩ | ⟨ej, hpres, hint⟩
    · subst he
      simp only [habs, Option.getD_none, pyInt]
      norm_num [ratTrunc]
    · simp only [hpres, Option.getD_some, hint]

/-- Claim **C9** (witness): the five classification branches at concrete
token-endpoint responses. -/
theorem getToken_outcome_classification_witness :
    (asyncGetToken ⟨none, 0⟩ 1000 ⟨401, .textBody "x", "Unauthorized"⟩).2
      = .error (.auth (.str "Invalid NSW Fuel Check API credentials")) ∧
    (asyncGetToken ⟨none, 0⟩ 1000 ⟨500, .textBody "x", "Server Error"⟩).2
      = .error (.api (.str "Token request failed with status 500: Server Error")) ∧
    (asyncGetToken ⟨none, 0⟩ 1000 ⟨200, .textBody "not json", "OK"⟩).2
      = .error (.api (.str
        "Unexpected error fetching token: Failed to parse token response JSON")) ∧
    (asyncGetToken ⟨none, 0⟩ 1000 ⟨200, .jsonBody (.obj []), "OK"⟩).2
      = .error (.api (.str "No access token in NSW Fuel Check token response")) ∧
    asyncGetToken ⟨none, 0⟩ 1000
        ⟨200, .jsonBody (.obj [("access_token", .str "t2")]), "OK"⟩
      = ([.tokenRequest],
         .ok (⟨some (.str "t2"), 1000 + ((3600 : Int) : Rat)⟩, some (.str "t2"))) := by
  refine ⟨?_, ?_, ?_, ?_, ?_⟩
  · exact (getToken_outcome_classification ⟨none, 0⟩ 1000
      ⟨401, .textBody "x", "Unauthorized"⟩ rfl).1 rfl
  · exact (getToken_outcome_classification ⟨none, 0⟩ 1000
      ⟨500, .textBody "x", "Server Error"⟩ rfl).2.1 (by decide) (by decide)
  · exact (getToken_outcome_classification ⟨none, 0⟩ 1000
      ⟨200, .textBody "not json", "OK"⟩ rfl).2.2.1 (by decide) _ rfl
  · exact (getToken_outcome_classification ⟨none, 0⟩ 1000
      ⟨200, .jsonBody (.obj []), "OK"⟩ rfl).2.2.2.1 (by decide) [] rfl rfl
  · exact (getToken_outcome_classification ⟨none, 0⟩ 1000
      ⟨200, .jsonBody (.obj [("access_token", .str "t2")]), "OK"⟩
      rfl).2.2.2.2 (by decide) [("access_token", .str "t2")] (.str "t2")
      3600 rfl rfl rfl (Or.inl ⟨rfl, rfl⟩)

/-- Claim **C4**.  A 401 on the first data attempt clears the cached token and
causes exactly one retry — after a 500 ms sleep — whose token manager
call performs a fresh credential-exchange request (the `tokenRequest` in
the trace); a 401 on the second attempt raises `AuthError`.  The
hypotheses say the token manager succeeds with a truthy token on both
attempts (the second starting from the cleared state), both data calls
return status 401, and `errorDetails` extraction does not itself
raise. -/
theorem request_401_retry_then_auth_error
    (st st1 st2 : ClientState) (now : Rat)
    (env : Nat → TokenResponse × DataOutcome) (evs0 : List Ev)
    (r0 r1 : DataResponse) (t0 t1 d0 d1 : Json)
    (h0 : asyncGetToken st now (env 0).1 = (evs0, .ok (st1, some t0)))
    (ht0 : t0.isFalsy = false)
    (hd0 : (env 0).2 = .resp r0) (hs0 : r0.status = 401)
    (he0 : extractErrorDetails (parseResponse r0.body) = .ok d0)
    (h1 : (asyncGetToken { st1 with token := none } now (env 1).1).2
        = .ok (st2, some t1))
    (ht1 : t1.isFalsy = false)
    (hd1 : (env 1).2 = .resp r1) (hs1 : r1.status = 401)
    (he1 : extractErrorDetails (parseResponse r1.body) = .ok d1) :
    asyncRequest st now env =
      (evs0 ++ [.httpAttempt, .sleepMs 500, .tokenRequest, .httpAttempt],
       .error (.auth (pyOr d1 (.str "Authentication failed during request.")))) := by
  have haux : asyncGetToken { st1 with token := none } now (env 1).1
      = ([.tokenRequest], .ok (st2, some t1)) := by
    rw [asyncGetToken_noToken { st1 with token := none } rfl now (env 1).1, h1]
  unfold asyncRequest
  rw [show (2 : Nat) = 1 + 1 from rfl, requestLoop_succ,
    requestAttemptBody_resp st st1 now (env 0).1 (env 0).2 0 1 evs0 t0 r0
      h0 ht0 hd0]
  rw [hs0, handleHttpError_401 st1 (parseResponse r0.body) r0.reason 0 1 d0 he0,
    if_pos (by omega : (0 : Nat) < 1)]
  simp only []
  rw [show (1 : Nat) = 0 + 1 from rfl, requestLoop_succ,
    requestAttemptBody_resp { st1 with token := none } st2 now (env (0 + 1)).1
      (env (0 + 1)).2 (0 + 1) 1 [.tokenRequest] t1 r1 haux ht1 hd1]
  rw [hs1, handleHttpError_401 st2 (parseResponse r1.body) r1.reason (0 + 1) 1
    d1 he1, if_neg (by omega : ¬(0 + 1 : Nat) < 1)]
  simp

/-- Claim **C4** (witness): with a fresh client and a network that always
answers 401 (and a healthy token endpoint), the pipeline performs token
fetch, attempt, sleep, token fetch, attempt, and raises `AuthError`. -/
theorem request_401_retry_then_auth_error_witness :
    asyncRequest ⟨none, 0⟩ 1000
      (fun _ => (⟨200, .jsonBody (.obj [("access_token", .str "tok"),
          ("expires_in", .num 3600)]), "OK"⟩,
        .resp ⟨401, .jsonBody (.obj []), "Unauthorized"⟩))
      = ([.tokenRequest, .httpAttempt, .sleepMs 500, .tokenRequest,
          .httpAttempt],
         .error (.auth (.str "Authentication failed during request."))) := by
  have h := request_401_retry_then_auth_error
    ⟨none, 0⟩ ⟨some (.str "tok"), 1000 + ((3600 : Int) : Rat)⟩
    ⟨some (.str "tok"), 1000 + ((3600 : Int) : Rat)⟩ 1000
    (fun _ => (⟨200, .jsonBody (.obj [("access_token", .str "tok"),
        ("expires_in", .num 3600)]), "OK"⟩,
      .resp ⟨401, .jsonBody (.obj []), "Unauthorized"⟩))
    [.tokenRequest] ⟨401, .jsonBody (.obj []), "Unauthorized"⟩
    ⟨401, .jsonBody (.obj []), "Unauthorized"⟩
    (.str "tok") (.str "tok") .null .null
    (by simp [asyncGetToken, needsRefresh, tokenHeld, Json.pyGet,
      Json.pyGetD, dictLookup, Json.isFalsy, pyInt, ratTrunc])
    rfl rfl rfl rfl
    (by simp [asyncGetToken, needsRefresh, tokenHeld, Json.pyGet,
      Json.pyGetD, dictLookup, Json.isFalsy, pyInt, ratTrunc])
    rfl rfl (by norm_num) rfl
  exact h.trans (by norm_num [pyOr, Json.isFalsy])

/-- Claim **C5**.  HTTP status classification of the data pipeline, given a
first attempt that obtains a truthy token and a response whose
`errorDetails` extraction does not raise: statuses below 400 return the
parsed body after a single attempt; statuses ≥ 500 raise
`ConnectionError` immediately with no retry; statuses in [400, 500)
other than 401/408 raise `ApiError` whose message is the `errorDetails`
description when the body supplies a truthy one; a 408 causes exactly
one retry and a second 408 raises `ConnectionError`. -/
theorem request_status_classification
    (st st1 : ClientState) (now : Rat)
    (env : Nat → TokenResponse × DataOutcome) (evs0 : List Ev)
    (r0 : DataResponse) (t0 d0 : Json)
    (h0 : asyncGetToken st now (env 0).1 = (evs0, .ok (st1, some t0)))
    (ht0 : t0.isFalsy = false)
    (hd0 : (env 0).2 = .resp r0)
    (he0 : extractErrorDetails (parseResponse r0.body) = .ok d0) :
    (r0.status < 400 →
      asyncRequest st now env =
        (evs0 ++ [.httpAttempt], .ok (st1, parseResponse r0.body))) ∧
    (500 ≤ r0.status →
      asyncRequest st now env =
        (evs0 ++ [.httpAttempt],
         .error (.conn (pyOr d0 (.str ("Server error " ++ toString r0.status
           ++ ": " ++ r0.reason)))))) ∧
    (400 ≤ r0.status → r0.status < 500 → r0.status ≠ 401 → r0.status ≠ 408 →
      asyncRequest st now env =
        (evs0 ++ [.httpAttempt],
         .error (.api (pyOr d0 (.str ("HTTP error " ++ toString r0.status
           ++ ": " ++ r0.reason)))))) ∧
    (r0.status = 408 → ∀ st2 t1 r1 d1 evs1,
      asyncGetToken st1 now (env 1).1 = (evs1, .ok (st2, some t1)) →
      t1.isFalsy = false →
      (env 1).2 = .resp r1 → r1.status = 408 →
      extractErrorDetails (parseResponse r1.body) = .ok d1 →
      asyncRequest st now env =
        (evs0 ++ [.httpAttempt, .sleepMs 500] ++ evs1 ++ [.httpAttempt],
         .error (.conn (pyOr d1 (.str "Request timed out after retry."))))) := by
  have hstep : asyncRequest st now env =
      (match handleHttpError st1 (parseResponse r0.body) r0.status r0.reason
          0 1 with
       | .error (.raw e) => (evs0 ++ [.httpAttempt], .error (.api (.str (pyErrStr e))))
       | .error e => (evs0 ++ [.httpAttempt], .error e)
       | .ok (st2, true) =>
           match requestLoop now env 1 1 1 st2 with
           | (evs', r') => ((evs0 ++ [.httpAttempt, .sleepMs 500]) ++ evs', r')
       | .ok (st2, false) =>
           (evs0 ++ [.httpAttempt], .ok (st2, parseResponse r0.body))) := by
    unfold asyncRequest
    rw [show (2 : Nat) = 1 + 1 from rfl, requestLoop_succ,
      requestAttemptBody_resp st st1 now (env 0).1 (env 0).2 0 1 evs0 t0 r0
        h0 ht0 hd0]
    cases hh : handleHttpError st1 (parseResponse r0.body) r0.status r0.reason
        0 1 with
    | error e => cases e <;> rfl
    | ok p =>
      rcases p with ⟨st2, b⟩
      cases b <;> rfl
  refine ⟨fun hlt => ?_, fun h5 => ?_, fun h4a h4b h4c h4d => ?_,
    fun h408 st2 t1 r1 d1 evs1 h1 ht1 hd1 hs1 he1 => ?_⟩
  · rw [hstep, handleHttpError_ok st1 (parseResponse r0.body) r0.status
      r0.reason 0 1 d0 he0 hlt]
  · rw [hstep, handleHttpError_5xx st1 (parseResponse r0.body) r0.status
      r0.reason 0 1 d0 he0 h5]
  · rw [hstep, handleHttpError_4xx st1 (parseResponse r0.body) r0.status
      r0.reason 0 1 d0 he0 h4a h4b h4c h4d]
  · rw [hstep, h408, handleHttpError_408 st1 (parseResponse r0.body) r0.reason
      0 1 d0 he0, if_pos (by omega : (0 : Nat) < 1)]
    simp only []
    rw [show (1 : Nat) = 0 + 1 from rfl, requestLoop_succ,
      requestAttemptBody_resp st1 st2 now (env (0 + 1)).1 (env (0 + 1)).2
        (0 + 1) 1 evs1 t1 r1 h1 ht1 hd1]
    rw [hs1, handleHttpError_408 st2 (parseResponse r1.body) r1.reason (0 + 1)
      1 d1 he1, if_neg (by omega : ¬(0 + 1 : Nat) < 1)]
    simp

/-- Claim **C5** (witness): the four branches at concrete statuses
(status 200 returning the body; status 500; status 404 with an
`errorDetails` description; two consecutive 408s). -/
theorem request_status_classification_witness :
    asyncRequest ⟨none, 0⟩ 1000
        (fun _ => (⟨200, .jsonBody (.obj [("access_token", .str "tok")]), "OK"⟩,
          .resp ⟨200, .jsonBody (.obj [("k", .num 1)]), "OK"⟩))
      = ([.tokenRequest, .httpAttempt], .ok (⟨some (.str "tok"),
          1000 + ((3600 : Int) : Rat)⟩, .obj [("k", .num 1)])) ∧
    asyncRequest ⟨none, 0⟩ 1000
        (fun _ => (⟨200, .jsonBody (.obj [("access_token", .str "tok")]), "OK"⟩,
          .resp ⟨500, .textBody "boom", "Internal Server Error"⟩))
      = ([.tokenRequest, .httpAttempt],
         .error (.conn (.str "Server error 500: Internal Server Error"))) ∧
    asyncRequest ⟨none, 0⟩ 1000
        (fun _ => (⟨200, .jsonBody (.obj [("access_token", .str "tok")]), "OK"⟩,
          .resp ⟨404, .jsonBody (.obj [("errorDetails",
            .arr [.obj [("description", .str "no such station")]])]),
            "Not Found"⟩))
      = ([.tokenRequest, .httpAttempt],
         .error (.api (.str "no such station"))) ∧
    asyncRequest ⟨none, 0⟩ 1000
        (fun _ => (⟨200, .jsonBody (.obj [("access_token", .str "tok")]), "OK"⟩,
          .resp ⟨408, .textBody "API timeout.", "Request Timeout"⟩))
      = ([.tokenRequest, .httpAttempt, .sleepMs 500, .httpAttempt],
         .error (.conn (.str "Request timed out after retry."))) := by
  have htok : ∀ st : ClientState, st.token = none →
      asyncGetToken st 1000
        ⟨200, .jsonBody (.obj [("access_token", .str "tok")]), "OK"⟩
      = ([.tokenRequest], .ok (⟨some (.str "tok"),
          1000 + ((3600 : Int) : Rat)⟩, some (.str "tok"))) := by
    intro st hst
    unfold asyncGetToken
    rw [if_pos (by unfold needsRefresh tokenHeld; rw [hst]; simp)]
    simp [Json.pyGet, Json.pyGetD, dictLookup, Json.isFalsy, pyInt, ratTrunc]
  refine ⟨?_, ?_, ?_, ?_⟩
  · exact ((request_status_classification ⟨none, 0⟩
      ⟨some (.str "tok"), 1000 + ((3600 : Int) : Rat)⟩ 1000 _
      [.tokenRequest] ⟨200, .jsonBody (.obj [("k", .num 1)]), "OK"⟩
      (.str "tok") .null (htok _ rfl) rfl rfl rfl).1 (by norm_num))
  · exact ((request_status_classification ⟨none, 0⟩
      ⟨some (.str "tok"), 1000 + ((3600 : Int) : Rat)⟩ 1000 _
      [.tokenRequest] ⟨500, .textBody "boom", "Internal Server Error"⟩
      (.str "tok") .null (htok _ rfl) rfl rfl rfl).2.1
      (by norm_num)).trans rfl
  · exact ((request_status_classification ⟨none, 0⟩
      ⟨some (.str "tok"), 1000 + ((3600 : Int) : Rat)⟩ 1000 _
      [.tokenRequest] ⟨404, .jsonBody (.obj [("errorDetails",
        .arr [.obj [("description", .str "no such station")]])]), "Not Found"⟩
      (.str "tok") (.str "no such station") (htok _ rfl) rfl rfl
      (by simp [extractErrorDetails, parseResponse, dictLookup, Json.pyGet,
        Json.isFalsy])).2.2.1
      (by norm_num) (by norm_num) (by norm_num) (by norm_num)).trans rfl
  · exact ((request_status_classification ⟨none, 0⟩
      ⟨some (.str "tok"), 1000 + ((3600 : Int) : Rat)⟩ 1000 _
      [.tokenRequest] ⟨408, .textBody "API timeout.", "Request Timeout"⟩
      (.str "tok") .null (htok _ rfl) rfl rfl rfl).2.2.2 rfl
      ⟨some (.str "tok"), 1000 + ((3600 : Int) : Rat)⟩ (.str "tok")
      ⟨408, .textBody "API timeout.", "Request Timeout"⟩ .null []
      (by have hnr : needsRefresh ⟨some (.str "tok"),
              1000 + ((3600 : Int) : Rat)⟩ 1000 = false := by
            simp [needsRefresh, tokenHeld, Json.isFalsy]
            norm_num
          unfold asyncGetToken
          rw [hnr]
          simp) rfl rfl rfl rfl).trans rfl

theorem requestAttemptBody_count (st : ClientState) (now : Rat)
    (tr : TokenResponse) (dr : DataOutcome) (a m : Nat) :
    (requestAttemptBody st now tr dr a m).1.count Ev.httpAttempt ≤ 1 := by
  unfold requestAttemptBody
  cases hg : asyncGetToken st now tr with
  | mk tevs res =>
    have htevs : tevs.count Ev.httpAttempt = 0 := by
      have h1 : (asyncGetToken st now tr).1 = tevs := by rw [hg]
      rcases asyncGetToken_trace st now tr with h | h <;> rw [h1] at h <;>
        subst h <;> rfl
    cases res with
    | error e => simp [htevs]
    | ok p =>
      rcases p with ⟨st1, tok⟩
      by_cases htk : tokenHeld tok = true
      · simp only [htk, Bool.not_true, Bool.false_eq_true, if_false]
        cases dr with
        | exn msg => simp [List.count_append, htevs]
        | resp r =>
            cases hh : handleHttpError st1 (parseResponse r.body) r.status
                r.reason a m with
            | error e =>
                cases e <;> simp [hh, List.count_append, htevs, List.count_cons]
            | ok p2 =>
                rcases p2 with ⟨st2, b⟩
                cases b <;> simp [hh, List.count_append, htevs, List.count_cons]
      · have htk' : tokenHeld tok = false := by
          cases hx : tokenHeld tok
          · rfl
          · exact absurd hx htk
        simp [htk', htevs]

/-- At `attempt = max_retries = 1`, the loop body never signals a
retry: every outcome is a return or an error. -/
theorem requestAttemptBody_no_retry (st : ClientState) (now : Rat)
    (tr : TokenResponse) (dr : DataOutcome) (st' : ClientState)
    (evs : List Ev)
    (h : requestAttemptBody st now tr dr 1 1 = (evs, .ok (st', none))) :
    False := by
  unfold requestAttemptBody at h
  cases hg : asyncGetToken st now tr with
  | mk tevs res =>
    rw [hg] at h
    cases res with
    | error e => simp at h
    | ok p =>
      rcases p with ⟨st1, tok⟩
      by_cases htk : tokenHeld tok = true
      · simp only [htk, Bool.not_true, Bool.false_eq_true, if_false] at h
        cases dr with
        | exn msg => simp at h
        | resp r =>
            cases hh : handleHttpError st1 (parseResponse r.body) r.status
                r.reason 1 1 with
            | error e => cases e <;> simp only [hh] at h <;> simp at h
            | ok p2 =>
                rcases p2 with ⟨st2, b⟩
                cases b
                · simp only [hh] at h; simp at h
                · have := handleHttpError_retry_lt st1 st2
                    (parseResponse r.body) r.status r.reason 1 1 hh
                  omega
      · have htk' : tokenHeld tok = false := by
          cases hx : tokenHeld tok
          · rfl
          · exact absurd hx htk
        simp [htk'] at h

/-- Because the body never retries at `attempt = 1`, granting the loop
more fuel than the real bound changes nothing. -/
theorem requestLoop_one_from_attempt_one (now : Rat)
    (env : Nat → TokenResponse × DataOutcome) (r : Nat) (st : ClientState) :
    requestLoop now env 1 (r + 1) 1 st = requestLoop now env 1 1 1 st := by
  have e1 := requestLoop_succ now env 1 r 1 st
  have e2 : requestLoop now env 1 1 1 st =
      (match requestAttemptBody st now (env 1).1 (env 1).2 1 1 with
       | (evs, .error e) => (evs, .error e)
       | (evs, .ok (st', some d)) => (evs, .ok (st', d))
       | (evs, .ok (st', none)) =>
           match requestLoop now env 1 0 (1 + 1) st' with
           | (evs', r') => (evs ++ evs', r')) :=
    requestLoop_succ now env 1 0 1 st
  rw [e1, e2]
  cases hb : requestAttemptBody st now (env 1).1 (env 1).2 1 1 with
  | mk evs res =>
    cases res with
    | error e => rfl
    | ok p =>
      rcases p with ⟨st', od⟩
      cases od with
      | some d => rfl
      | none => exact (requestAttemptBody_no_retry st now (env 1).1 (env 1).2
          st' evs hb).elim

/-- Each loop iteration issues at most one HTTP attempt, so a loop with
fuel `r` issues at most `r`. -/
theorem requestLoop_count (now : Rat)
    (env : Nat → TokenResponse × DataOutcome) (mr : Nat) :
    ∀ (r a : Nat) (st : ClientState),
    (requestLoop now env mr r a st).1.count Ev.httpAttempt ≤ r := by
  intro r
  induction r with
  | zero => intro a st; simp [requestLoop]
  | succ n ih =>
    intro a st
    rw [requestLoop_succ]
    cases hb : requestAttemptBody st now (env a).1 (env a).2 a mr with
    | mk evs res =>
      have hc := requestAttemptBody_count st now (env a).1 (env a).2 a mr
      rw [hb] at hc
      replace hc : List.count Ev.httpAttempt evs ≤ 1 := hc
      cases res with
      | error e =>
          show List.count Ev.httpAttempt evs ≤ n + 1
          omega
      | ok p =>
        rcases p with ⟨st', od⟩
        cases od with
        | some d =>
            show List.count Ev.httpAttempt evs ≤ n + 1
            omega
        | none =>
          show List.count Ev.httpAttempt
              (match requestLoop now env mr n (a + 1) st' with
               | (evs', r') => (evs ++ evs', r')).1 ≤ n + 1
          cases hl : requestLoop now env mr n (a + 1) st' with
          | mk evs' r' =>
            have hrec := ih (a + 1) st'
            rw [hl] at hrec
            replace hrec : List.count Ev.httpAttempt evs' ≤ n := hrec
            show List.count Ev.httpAttempt (evs ++ evs') ≤ n + 1
            rw [List.count_append]
            omega

/-- Claim **C7** (counterexample).  Not every execution path inside the
retry loop raises one of the three domain error kinds:
`int(result.get("expires_in", 3600))` in the token manager (client.py
line 158) runs after that function's `try`/`except`, and the token call
in `_async_request` (line 263) sits outside the loop's `try`, so a
token-endpoint body carrying `"expires_in": null` makes a raw
`TypeError` escape the whole pipeline unwrapped. -/
theorem request_raw_typeError_escape :
    asyncRequest ⟨none, 0⟩ 1000
      (fun _ => (⟨200, .jsonBody (.obj [("access_token", .str "t"),
          ("expires_in", .null)]), "OK"⟩,
        .resp ⟨200, .jsonBody (.obj []), "OK"⟩))
      = ([.tokenRequest],
         .error (.raw (.typeError
           "int() argument must be a string or a number, not NoneType"))) := by
  rfl

/-- Claim **C7** (amended).  The pipeline makes at most two HTTP
attempts per call (401 and 408 retries combined), and the defensive
`ApiError("failed to perform request")` after the loop is dead code:
running the loop with any extra iteration budget beyond the real bound
(`max_retries + 1 - attempt = 2`) produces the identical outcome, i.e.
the loop-exit fallback arm is never reached — every path inside the
loop returns the parsed body or raises.  What it raises, however, is
not always one of the three domain error kinds: the token-manager call
runs outside the loop's `try`, and a raw exception from its
post-`try` `int(expires_in)` conversion escapes unwrapped, as the
counterexample above shows. -/
theorem request_at_most_two_attempts (st : ClientState) (now : Rat)
    (env : Nat → TokenResponse × DataOutcome) (k : Nat) :
    (asyncRequest st now env).1.count Ev.httpAttempt ≤ 2 ∧
    requestLoop now env 1 (k + 2) 0 st = asyncRequest st now env := by
  constructor
  · exact requestLoop_count now env 1 2 0 st
  · unfold asyncRequest
    have e1 : requestLoop now env 1 (k + 2) 0 st =
        (match requestAttemptBody st now (env 0).1 (env 0).2 0 1 with
         | (evs, .error e) => (evs, .error e)
         | (evs, .ok (st', some d)) => (evs, .ok (st', d))
         | (evs, .ok (st', none)) =>
             match requestLoop now env 1 (k + 1) 1 st' with
             | (evs', r') => (evs ++ evs', r')) :=
      requestLoop_succ now env 1 (k + 1) 0 st
    have e2 : requestLoop now env 1 2 0 st =
        (match requestAttemptBody st now (env 0).1 (env 0).2 0 1 with
         | (evs, .error e) => (evs, .error e)
         | (evs, .ok (st', some d)) => (evs, .ok (st', d))
         | (evs, .ok (st', none)) =>
             match requestLoop now env 1 1 1 st' with
             | (evs', r') => (evs ++ evs', r')) :=
      requestLoop_succ now env 1 1 0 st
    rw [e1, e2]
    cases hb : requestAttemptBody st now (env 0).1 (env 0).2 0 1 with
    | mk evs res =>
      cases res with
      | error e => rfl
      | ok p =>
        rcases p with ⟨st', od⟩
        cases od with
        | some d => rfl
        | none =>
            show (match requestLoop now env 1 (k + 1) 1 st' with
                  | (evs', r') => (evs ++ evs', r')) =
                (match requestLoop now env 1 1 1 st' with
                 | (evs', r') => (evs ++ evs', r'))
            rw [requestLoop_one_from_attempt_one now env k st']

/-- Does a pipeline-level result raise `NSWFuelApiClientError` (the
`ApiError` kind)? -/
def raisesApiError {α : Type} : Except Err α → Bool
  | .error (.api _) => true
  | _ => false

/-- Claim **C8**.  On a body that is a JSON object, `getFuelPrices` raises
`ApiError` whenever the `prices` or `stations` key is absent (the empty
object included), and `getFuelPricesWithinRadius` raises `ApiError`
whenever the `stations` or `prices` key is absent or maps to an empty
list. -/
theorem missing_keys_api_error (latlong : String)
    (kvs : List (String × Json)) :
    ((dictLookup kvs "prices" = none ∨ dictLookup kvs "stations" = none) →
      raisesApiError (getFuelPrices (.ok (.obj kvs))) = true) ∧
    ((dictLookup kvs "stations" = none ∨ dictLookup kvs "prices" = none ∨
      dictLookup kvs "stations" = some (.arr []) ∨
      dictLookup kvs "prices" = some (.arr [])) →
      raisesApiError (getFuelPricesWithinRadius latlong (.ok (.obj kvs))) = true) := by
  constructor
  · intro hmiss
    unfold getFuelPrices
    cases hempty : (Json.obj kvs).isFalsy with
    | true => simp [hempty, raisesApiError]
    | false =>
      cases hpl : dictLookup kvs "prices" with
      | none => simp [Json.pyIn, hempty, hpl, raisesApiError]
      | some pv =>
        rcases hmiss with h | h
        · rw [h] at hpl; cases hpl
        · simp [Json.pyIn, hempty, hpl, h, raisesApiError]
  · intro hmiss
    unfold getFuelPricesWithinRadius
    cases hempty : (Json.obj kvs).isFalsy with
    | true => simp [hempty, raisesApiError]
    | false =>
      cases hsl : dictLookup kvs "stations" with
      | none => simp [Json.pyIn, hempty, hsl, raisesApiError]
      | some sv =>
        cases hpl : dictLookup kvs "prices" with
        | none => simp [Json.pyIn, hempty, hsl, hpl, raisesApiError]
        | some pv =>
          have hfals : sv.isFalsy = true ∨ pv.isFalsy = true := by
            rcases hmiss with h | h | h | h
            · rw [h] at hsl; cases hsl
            · rw [h] at hpl; cases hpl
            · rw [h] at hsl; cases hsl; exact Or.inl rfl
            · rw [h] at hpl; cases hpl; exact Or.inr rfl
          rcases hfals with h | h <;>
            simp [Json.pyIn, Json.pyGet, hempty, hsl, hpl, h, raisesApiError]

/-- Claim **C8** (witness): a body with only an empty `stations` list makes
`getFuelPrices` raise `ApiError` (missing `prices`), and a body with an
empty `stations` list and a non-empty `prices` list makes
`getFuelPricesWithinRadius` raise `ApiError`. -/
theorem missing_keys_api_error_witness :
    raisesApiError (getFuelPrices (.ok (.obj [("stations", .arr [.null])])))
      = true ∧
    raisesApiError (getFuelPricesWithinRadius "(0, 0)"
      (.ok (.obj [("stations", .arr []), ("prices", .arr [.null])]))) = true :=
  ⟨(missing_keys_api_error "(0, 0)" [("stations", .arr [.null])]).1
      (Or.inl rfl),
   (missing_keys_api_error "(0, 0)"
      [("stations", .arr []), ("prices", .arr [.null])]).2
      (Or.inr (Or.inr (Or.inl rfl)))⟩

theorem pyIntDigits_shape (s : String) (ds : List Char) :
    (∃ n, pyIntDigits s ds = .ok n) ∨
    (∃ m, pyIntDigits s ds = .error (.valueError m)) := by
  unfold pyIntDigits
  split
  · exact Or.inl ⟨_, rfl⟩
  · exact Or.inr ⟨_, rfl⟩

theorem pyIntOfStr_shape (s : String) :
    (∃ n, pyIntOfStr s = .ok n) ∨
    (∃ m, pyIntOfStr s = .error (.valueError m)) := by
  unfold pyIntOfStr
  cases hsplit : s.trim.toList with
  | nil => simp only [hsplit]; exact Or.inr ⟨_, rfl⟩
  | cons c rest =>
    simp only [hsplit]
    by_cases hneg : c = '-'
    · rw [if_pos hneg]
      rcases pyIntDigits_shape s rest with ⟨n, hn⟩ | ⟨m, hm⟩
      · rw [hn]; exact Or.inl ⟨_, rfl⟩
      · rw [hm]; exact Or.inr ⟨_, rfl⟩
    · rw [if_neg hneg]
      by_cases hpos : c = '+'
      · rw [if_pos hpos]; exact pyIntDigits_shape s rest
      · rw [if_neg hpos]; exact pyIntDigits_shape s (c :: rest)

/-- Model: `int(x)` only raises TypeError or ValueError. -/
theorem pyInt_shape (j : Json) :
    (∃ n, pyInt j = .ok n) ∨ (∃ m, pyInt j = .error (.typeError m)) ∨
    (∃ m, pyInt j = .error (.valueError m)) := by
  cases j with
  | null => exact Or.inr (Or.inl ⟨_, rfl⟩)
  | bool b => exact Or.inl ⟨_, rfl⟩
  | num q => exact Or.inl ⟨_, rfl⟩
  | arr xs => exact Or.inr (Or.inl ⟨_, rfl⟩)
  | obj kvs => exact Or.inr (Or.inl ⟨_, rfl⟩)
  | str s =>
    rcases pyIntOfStr_shape s with ⟨n, hn⟩ | ⟨m, hm⟩
    · exact Or.inl ⟨n, hn⟩
    · exact Or.inr (Or.inr ⟨m, hm⟩)

/-- Model: `Price.deserialize` only succeeds or raises KeyError, TypeError or
ValueError — exactly the kinds the radius join catches.  The single
`.get` call (`priceunit`) runs on a value already known to be a dict,
so AttributeError is impossible. -/
theorem price_deserialize_shape (p : Json) :
    (∃ pr, Price.deserialize p = .ok pr) ∨
    (∃ k, Price.deserialize p = .error (.keyError k)) ∨
    (∃ m, Price.deserialize p = .error (.typeError m)) ∨
    (∃ m, Price.deserialize p = .error (.valueError m)) := by
  cases p with
  | null => exact Or.inr (Or.inr (Or.inl ⟨_, rfl⟩))
  | bool b => exact Or.inr (Or.inr (Or.inl ⟨_, rfl⟩))
  | num q => exact Or.inr (Or.inr (Or.inl ⟨_, rfl⟩))
  | str s => exact Or.inr (Or.inr (Or.inl ⟨_, rfl⟩))
  | arr xs => exact Or.inr (Or.inr (Or.inl ⟨_, rfl⟩))
  | obj kvs =>
    unfold Price.deserialize tryParseLastUpdated
    simp only [Json.getItem, Json.pyIn, Json.pyGet, exceptBind_ok,
      exceptBind_err, exceptPure]
    cases hlu : dictLookup kvs "lastupdated" with
    | none => simp only [hlu]; exact Or.inr (Or.inl ⟨_, rfl⟩)
    | some v =>
      simp only [hlu]
      cases v with
      | null => exact Or.inr (Or.inr (Or.inl ⟨_, rfl⟩))
      | bool b => exact Or.inr (Or.inr (Or.inl ⟨_, rfl⟩))
      | num q => exact Or.inr (Or.inr (Or.inl ⟨_, rfl⟩))
      | arr xs => exact Or.inr (Or.inr (Or.inl ⟨_, rfl⟩))
      | obj okvs => exact Or.inr (Or.inr (Or.inl ⟨_, rfl⟩))
      | str s =>
        cases hd1 : strptimeDMY s <;>
          simp only [hd1, tryParseLastUpdated, Json.getItem, hlu,
            exceptBind_ok, exceptBind_err, exceptPure] <;>
        (cases hsc : dictLookup kvs "stationcode" with
         | none =>
            simp only [hsc, Option.isSome_none, Bool.false_eq_true, if_false,
              exceptBind_ok, exceptPure]
            cases hf : dictLookup kvs "fueltype" with
            | none => simp only [hf]; exact Or.inr (Or.inl ⟨_, rfl⟩)
            | some fv =>
              simp only [hf, exceptBind_ok]
              cases hpr : dictLookup kvs "price" with
              | none => simp only [hpr]; exact Or.inr (Or.inl ⟨_, rfl⟩)
              | some pv =>
                simp only [hpr, exceptBind_ok, exceptPure]
                exact Or.inl ⟨_, rfl⟩
         | some cj =>
            simp only [hsc, Option.isSome_some, if_true, exceptBind_ok,
              exceptPure]
            rcases pyInt_shape cj with ⟨n, hn⟩ | ⟨mm, hm⟩ | ⟨mm, hm⟩
            · simp only [hn, exceptBind_ok, exceptPure]
              cases hf : dictLookup kvs "fueltype" with
              | none => simp only [hf]; exact Or.inr (Or.inl ⟨_, rfl⟩)
              | some fv =>
                simp only [hf, exceptBind_ok]
                cases hpr : dictLookup kvs "price" with
                | none => simp only [hpr]; exact Or.inr (Or.inl ⟨_, rfl⟩)
                | some pv =>
                  simp only [hpr, exceptBind_ok, exceptPure]
                  exact Or.inl ⟨_, rfl⟩
            · simp only [hm, exceptBind_err]
              exact Or.inr (Or.inr (Or.inl ⟨_, rfl⟩))
            · simp only [hm, exceptBind_err]
              exact Or.inr (Or.inr (Or.inr ⟨_, rfl⟩)))

/-- Model: `Price.deserialize` never raises AttributeError. -/
theorem price_deserialize_not_attr (p : Json) (m : String) :
    Price.deserialize p ≠ .error (.attributeError m) := by
  intro hc
  rcases price_deserialize_shape p with ⟨pr, hp⟩ | ⟨k, hp⟩ | ⟨mm, hp⟩ |
    ⟨mm, hp⟩ <;> rw [hp] at hc <;> simp at hc

/-- Specification form of the radius join for one price entry: emit a
`StationPrice` exactly when the entry deserializes, has a non-null
station code, and that code is in the lookup; otherwise nothing. -/
def joinSpec (smap : List (Int × Station)) (p : Json) : Option StationPrice :=
  match Price.deserialize p with
  | .ok price =>
      match price.station_code with
      | some c =>
          (dictGet smap c).map (fun stn => { price := price, station := stn })
      | none => none
  | .error _ => none

/-- The join loop is the one-pass order-preserving filter-map of
`joinSpec`: malformed entries are skipped, never fatal. -/
theorem joinPrices_eq_filterMap (smap : List (Int × Station))
    (ps : List Json) :
    joinPrices smap ps = .ok (ps.filterMap (joinSpec smap)) := by
  induction ps with
  | nil => rfl
  | cons p rest ih =>
    unfold joinPrices
    cases hpd : Price.deserialize p with
    | ok price =>
      simp only [List.filterMap_cons, joinSpec, hpd]
      cases hsc : price.station_code with
      | none =>
          simp only [hsc]
          exact ih
      | some c =>
          simp only [hsc]
          cases hdg : dictGet smap c with
          | none =>
              simp only [hdg, Option.map_none']
              exact ih
          | some stn =>
              simp only [hdg, Option.map_some']
              rw [ih]
    | error e =>
      cases e with
      | keyError k =>
          simp only [List.filterMap_cons, joinSpec, hpd]
          exact ih
      | typeError m =>
          simp only [List.filterMap_cons, joinSpec, hpd]
          exact ih
      | valueError m =>
          simp only [List.filterMap_cons, joinSpec, hpd]
          exact ih
      | attributeError m => exact absurd hpd (price_deserialize_not_attr p m)

/-- Claim **C6**.  On a response object with non-empty `stations` and `prices`
lists whose station lookup builds successfully,
`getFuelPricesWithinRadius` succeeds and returns exactly one
`StationPrice` per price entry that deserializes with a non-null station
code present in the lookup, in source price-list order; entries that
fail to deserialize with KeyError / TypeError / ValueError are silently
skipped and never make the call fail. -/
theorem radius_join_spec (latlong : String) (kvs : List (String × Json))
    (ss ps : List Json) (smap : List (Int × Station))
    (hs : dictLookup kvs "stations" = some (.arr ss)) (hsne : ss ≠ [])
    (hp : dictLookup kvs "prices" = some (.arr ps)) (hpne : ps ≠ [])
    (hm : buildStationsMap (.arr ss) = .ok smap) :
    getFuelPricesWithinRadius latlong (.ok (.obj kvs)) =
      .ok (ps.filterMap (joinSpec smap)) := by
  have hkne : (Json.obj kvs).isFalsy = false := by
    cases kvs with
    | nil => cases hs
    | cons kv rest => rfl
  have hssf : (Json.arr ss).isFalsy = false := by
    cases ss with
    | nil => exact absurd rfl hsne
    | cons x xs => rfl
  have hpsf : (Json.arr ps).isFalsy = false := by
    cases ps with
    | nil => exact absurd rfl hpne
    | cons x xs => rfl
  unfold getFuelPricesWithinRadius
  simp only [hkne, Bool.false_eq_true, if_false, Json.pyIn, Json.pyGet,
    hs, hp, Option.isSome_some, Bool.not_true, Option.getD_some, hssf, hpsf,
    Bool.or_self, hm, Json.pyIter, joinPrices_eq_filterMap]

/-- A station object of the radius-join witness fixture. -/
def rjStationJson (c : Rat) (nm : String) : Json :=
  .obj [("brand", .str "B"), ("code", .num c), ("name", .str nm),
        ("address", .str "A"),
        ("location", .obj [("latitude", .num 1), ("longitude", .num 2)])]

/-- A price object of the radius-join witness fixture. -/
def rjPriceJson (c : Rat) (v : Rat) : Json :=
  .obj [("stationcode", .num c), ("fueltype", .str "P95"), ("price", .num v),
        ("priceunit", .str "litre"),
        ("lastupdated", .str "2018-06-02 00:46:31")]

/-- The station the source produces for `rjStationJson c nm`. -/
def rjStation (c : Int) (nm : String) : Station :=
  { ident := .null, brand := .str "B", code := c, name := .str nm,
    address := .str "A", latitude := .num 1, longitude := .num 2,
    au_state := .str "NSW" }

/-- The price the source produces for `rjPriceJson c v`. -/
def rjPrice (c : Int) (v : Rat) : Price :=
  { fuel_type := .str "P95", price := .num v,
    last_updated := some ⟨2018, 6, 2, 0, 46, 31⟩,
    price_unit := .str "litre", station_code := some c }

/-- The station lookup built from the witness fixture. -/
def rjSmap : List (Int × Station) :=
  [(678, rjStation 678 "a"), (679, rjStation 679 "b"),
   (880, rjStation 880 "c")]

/-- The witness fixture's station list. -/
def rjStationsList : List Json :=
  [rjStationJson 678 "a", rjStationJson 679 "b", rjStationJson 880 "c"]

/-- The witness fixture's price list. -/
def rjPricesList : List Json :=
  [rjPriceJson 678 150, rjPriceJson 678 130, rjPriceJson 880 155]

/-- The witness fixture's response object. -/
def rjKvs : List (String × Json) :=
  [("stations", .arr rjStationsList), ("prices", .arr rjPricesList)]

/-- Claim **C6** (witness): three stations (codes 678/679/880) and three
prices (two for 678, one for 880) join to exactly three
`StationPrice` entries in price order; station 679 having no price is
not an error. -/
theorem radius_join_spec_witness :
    getFuelPricesWithinRadius "(-33.0, 151.0)" (.ok (.obj rjKvs))
      = .ok [⟨rjPrice 678 150, rjStation 678 "a"⟩,
             ⟨rjPrice 678 130, rjStation 678 "a"⟩,
             ⟨rjPrice 880 155, rjStation 880 "c"⟩] :=
  (radius_join_spec "(-33.0, 151.0)" rjKvs rjStationsList rjPricesList
    rjSmap rfl (by simp [rjStationsList]) rfl (by simp [rjPricesList])
    rfl).trans (by rfl)

/-- Claim **C10**.  `Station.deserialize` applies the `DEFAULT_STATE`
constant `"NSW"` whenever `data.get("state")` is absent *or* falsy
(`None`, `""`, ...), and keeps any truthy value unchanged — the
behaviour of `data.get("state") or DEFAULT_STATE`. -/
theorem station_state_default (kvs : List (String × Json)) (s : Station)
    (h : Station.deserialize (.obj kvs) = .ok s) :
    s.au_state =
      match dictLookup kvs "state" with
      | none => Json.str DEFAULT_STATE
      | some v => if v.isFalsy then Json.str DEFAULT_STATE else v := by
  unfold Station.deserialize at h
  simp only [Json.pyGet, Json.getItem, exceptBind_ok] at h
  cases hbr : dictLookup kvs "brand" with
  | none => rw [hbr] at h; simp at h
  | some bv =>
    rw [hbr] at h
    simp only [exceptBind_ok] at h
    cases hcd : dictLookup kvs "code" with
    | none => rw [hcd] at h; simp at h
    | some cv =>
      rw [hcd] at h
      simp only [exceptBind_ok] at h
      cases hci : pyInt cv with
      | error e => rw [hci] at h; simp at h
      | ok code =>
        rw [hci] at h
        simp only [exceptBind_ok] at h
        cases hnm : dictLookup kvs "name" with
        | none => rw [hnm] at h; simp at h
        | some nv =>
          rw [hnm] at h
          simp only [exceptBind_ok] at h
          cases had : dictLookup kvs "address" with
          | none => rw [had] at h; simp at h
          | some av =>
            rw [had] at h
            simp only [exceptBind_ok] at h
            cases hlo : dictLookup kvs "location" with
            | none => rw [hlo] at h; simp at h
            | some lv =>
              rw [hlo] at h
              simp only [exceptBind_ok] at h
              cases lv with
              | obj lkvs =>
                simp only [Json.getItem] at h
                cases hla : dictLookup lkvs "latitude" with
                | none => rw [hla] at h; simp at h
                | some lav =>
                  rw [hla] at h
                  simp only [exceptBind_ok] at h
                  cases hlg : dictLookup lkvs "longitude" with
                  | none => rw [hlg] at h; simp at h
                  | some lgv =>
                    rw [hlg] at h
                    simp only [exceptBind_ok, exceptPure, Except.ok.injEq] at h
                    subst h
                    simp only []
                    cases hst : dictLookup kvs "state" with
                    | none => simp [hst, Json.isFalsy]
                    | some sv => simp [hst, Option.getD]
              | null => simp at h
              | bool b => simp [Json.getItem] at h
              | num q => simp [Json.getItem] at h
              | str sv => simp [Json.getItem] at h
              | arr xs => simp [Json.getItem] at h

/-- A station object (key/value list) whose `state` key is present but
`null`, used to witness the `state` defaulting. -/
def stationNullStateKVs : List (String × Json) :=
  [("brand", .str "B"), ("code", .num 678), ("name", .str "N"),
   ("address", .str "A"),
   ("location", .obj [("latitude", .num 1), ("longitude", .num 2)]),
   ("state", .null)]

/-- The station the source produces for `stationNullStateKVs`. -/
def stationNullStateParsed : Station :=
  { ident := .null, brand := .str "B", code := 678, name := .str "N",
    address := .str "A", latitude := .num 1, longitude := .num 2,
    au_state := .str "NSW" }

/-- Claim **C10** (witness): a station object whose `state` key is present but
`null` deserializes with `au_state = "NSW"`. -/
theorem station_state_default_witness :
    Station.deserialize (.obj stationNullStateKVs) = .ok stationNullStateParsed ∧
    stationNullStateParsed.au_state = .str "NSW" :=
  ⟨rfl, (station_state_default stationNullStateKVs stationNullStateParsed
    rfl).trans rfl⟩

end NSWFuel
